import Mathlib

/-!
Verification of `allennlp_server/commands/server_simple.py`.

The file shallowly embeds the Flask application built by `make_app`:
JSON values, the predictor/sanitizer collaborators, the four route
handlers (`index`, `predict`, `predict_batch`, `static_proxy`), the
`ServerError` error handler, werkzeug-style routing, the bare-bones HTML
form renderer `_html` (with its page template, input template and CSS
embedded verbatim), and the `make_app`/`serve` startup path.

Theorems at the end of the file settle the specification claims.
-/

namespace ServerSimple

/-- JSON-compatible values: the request/response payloads of the server.
Python dicts are modelled as association lists (insertion order, as
preserved by Python dicts and by Flask's `jsonify`). -/
inductive Json where
  | null : Json
  | bool (b : Bool) : Json
  | num (n : Int) : Json
  | str (s : String) : Json
  | arr (elems : List Json) : Json
  | obj (fields : List (String × Json)) : Json

/-- The external `Predictor` collaborator: `predict_json` and
`predict_batch_json`, pure functions over JSON (spec section 4.3). -/
structure Predictor where
  predict_json : Json → Json
  predict_batch_json : List Json → List Json

/-- The arguments of `make_app`, i.e. the server configuration that the
route closures capture.  Defaults match the Python signature. -/
structure AppConfig where
  predictor : Predictor
  field_names : Option (List String) := none
  static_dir : Option String := none
  sanitizer : Option (Json → Json) := none
  title : String := "AllenNLP Demo"

/-- The file system, as seen through `os.path.exists`, `os.path.abspath`
and file reads performed by `send_file` / `send_from_directory`. -/
structure FileSystem where
  pathExists : String → Bool
  abspath : String → String
  readFile : String → Option String

/-- Modelled from the spec: `ServerError` is imported from
`allennlp_server.config_explorer.config_explorer`, which is not among the
provided sources.  Per spec section 4.1, it is "a single custom error kind
[that] carries a JSON payload (`{message, status_code}` shape) and an HTTP
status code". -/
structure ServerError where
  message : String
  status_code : Nat

/-- Modelled from the spec: the dictionary `ServerError.to_dict` that the
error handler serializes, with the `{message, status_code}` shape named in
spec section 4.1. -/
def ServerError.to_dict (e : ServerError) : Json :=
  .obj [("message", .str e.message), ("status_code", .num e.status_code)]

/-- Exceptions a handler can raise.  `serverError` is the custom
`ServerError`; `notFound` is werkzeug's `NotFound` (raised by
`send_from_directory` on a missing file); `uncaught` stands for any other
Python exception (`TypeError`, predictor failures, ...) that falls through
to the framework's default 500 handler. -/
inductive Exn where
  | serverError (message : String) (status_code : Nat) : Exn
  | notFound : Exn
  | uncaught : Exn

/-- Response bodies: `jsonBody` for `jsonify` results, `textBody` for
plain `Response(response=...)` strings (and framework default error
pages), `fileBody` for file contents served from disk. -/
inductive Body where
  | jsonBody (j : Json) : Body
  | textBody (s : String) : Body
  | fileBody (contents : String) : Body

/-- An HTTP response: status code and body. -/
structure HttpResponse where
  status : Nat
  body : Body

/-- The outcome of running one route handler: the returned response (or
raised exception) together with the log lines the handler wrote.  A log
line is modelled by the JSON blob passed to `json.dumps` in
`logger.info("prediction: %s", json.dumps(log_blob))`. -/
structure HandlerOut where
  result : Except Exn HttpResponse
  log : List Json

/-- HTTP methods relevant to the app's routes. -/
inductive Method where
  | GET : Method
  | POST : Method
  | OPTIONS : Method

/-- An HTTP request: method, URL path, and the value `request.get_json()`
would decode from the body (`Json.null` when there is no body). -/
structure Request where
  method : Method
  path : String
  body : Json

/-- Literal text of `_PAGE_TEMPLATE` between its placeholders (piece 0). -/
def pageChunk0 : String :=
  "\n<html>\n    <head>\n        <title>\n            "

/-- Literal text of `_PAGE_TEMPLATE` between its placeholders (piece 1). -/
def pageChunk1 : String :=
  "\n        </title>\n        <style>\n            "

/-- Literal text of `_PAGE_TEMPLATE` between its placeholders (piece 2). -/
def pageChunk2 : String :=
  "\n        </style>\n    </head>\n    <body>\n        <div class=\"pane-container\">\n            <div class=\"pane model\">\n                <div class=\"pane__left model__input\">\n                    <div class=\"model__content\">\n                        <h2><span>"

/-- Literal text of `_PAGE_TEMPLATE` between its placeholders (piece 3). -/
def pageChunk3 : String :=
  "</span></h2>\n                        <div class=\"model__content\">\n                            "

/-- Literal text of `_PAGE_TEMPLATE` between its placeholders (piece 4). -/
def pageChunk4 : String :=
  "\n                            <div class=\"form__field form__field--btn\">\n                                <button type=\"button\" class=\"btn btn--icon-disclosure\" onclick=\"predict()\">\n                                    Predict\n                                </button>\n                            </div>\n                        </div>\n                    </div>\n                </div>\n                <div class=\"pane__right model__output model__output--empty\">\n                    <div class=\"pane__thumb\"></div>\n                    <div class=\"model__content\">\n                        <div id=\"output\" class=\"output\">\n                            <div class=\"placeholder\">\n                                <div class=\"placeholder__content\">\n                                    <p>Run model to view results</p>\n                                </div>\n                            </div>\n                        </div>\n                    </div>\n                </div>\n            </div>\n        </div>\n    </body>\n    <script>\n    function predict() \x7b\n        var quotedFieldList = "

/-- Literal text of `_PAGE_TEMPLATE` between its placeholders (piece 5). -/
def pageChunk5 : String :=
  ";\n        var data = \x7b\x7d;\n        quotedFieldList.forEach(function(fieldName) \x7b\n            data[fieldName] = document.getElementById(\"input-\" + fieldName).value;\n        \x7d)\n\n        var xhr = new XMLHttpRequest();\n        xhr.open(\x27POST\x27, \x27/predict\x27);\n        xhr.setRequestHeader(\x27Content-Type\x27, \x27application/json\x27);\n        xhr.onload = function() \x7b\n            if (xhr.status == 200) \x7b\n                // If you want a more impressive visualization than just\n                // outputting the raw JSON, change this part of the code.\n                var htmlResults = \"<pre>\" + JSON.stringify(JSON.parse(xhr.responseText), null, 2) + \"</pre>\";\n\n                document.getElementById(\"output\").innerHTML = htmlResults;\n            \x7d\n        \x7d;\n        xhr.send(JSON.stringify(data));\n    \x7d\n    </script>\n</html>\n"

/-- Literal text of `_SINGLE_INPUT_TEMPLATE` between its placeholders (piece 0). -/
def inputChunk0 : String :=
  "\n        <div class=\"form__field\">\n            <label for=\"input-"

/-- Literal text of `_SINGLE_INPUT_TEMPLATE` between its placeholders (piece 1). -/
def inputChunk1 : String :=
  "\">"

/-- Literal text of `_SINGLE_INPUT_TEMPLATE` between its placeholders (piece 2). -/
def inputChunk2 : String :=
  "</label>\n            <input type=\"text\" id=\"input-"

/-- Literal text of `_SINGLE_INPUT_TEMPLATE` between its placeholders (piece 3). -/
def inputChunk3 : String :=
  "\" type=\"text\" required value placeholder=\"input goes here\">\n        </div>\n"

/-- Part 0 of the inline stylesheet `_CSS` (split only to keep kernel
evaluation shallow; the parts concatenate to the verbatim source text). -/
def cssPart0 : String :=
  "\nbody,\nhtml \x7b\n  min-width: 48em;\n  background: #f9fafc;\n  font-size: 16px\n\x7d\n\n* \x7b\n  font-family: sans-serif;\n  color: #232323\n\x7d\n\nsection \x7b\n  background: #fff\n\x7d\n\ncode,\ncode span,\npre,\n.output \x7b\n  font-family: \x27Roboto Mono\x27, monospace!important\n\x7d\n\ncode \x7b\n  background: #f6f8fa\n\x7d\n\nli,\np,\ntd,\nth \x7b\n  -webkit-font-smoothing: antialiased;\n  -moz-osx-font-smoothing: grayscale;\n  font-size: 1.125em;\n  line-height: 1.5em;\n  margin: 1.2em 0\n\x7d\n\npre \x7b\n  margin: 2em 0\n\x7d\n\nh1,\nh2 \x7b\n  -webkit-font-smoothing: antialiased;\n  -moz-osx-font-smoothing: grayscale;\n  font-weight: 300\n\x7d\n\nh2 \x7b\n  font-size: 2em;\n  color: rgba(35, 35, 35, .75)\n\x7d\n\nimg \x7b\n  max-width: 100%\n\x7d\n\nhr \x7b\n  display: block;\n  border: none;\n  height: .375em;\n  background: #f6f8fa\n\x7d\n\nblockquote,\nhr \x7b\n  margin: 2.4em 0\n\x7d\n\n.btn \x7b\n  text-decoration: none;\n  cursor: pointer;\n  text-transform: uppercase;\n  font-size: 1em;\n  margin: 0;\n  -moz-appearance: none;\n  -webkit-appearance: none;\n  border: none;\n  color: #fff!important;\n  display: block;\n  background: #2085bc;\n  padding: .9375em 3.625em;\n  -webkit-transition: background-color .2s ease, opacity .2s ease;\n  transition: background-color .2s ease, opacity .2s ease\n\x7d\n\n.btn.btn--blue \x7b\n  background: #2085bc\n\x7d\n\n.btn:focus,\n.btn:hover \x7b\n  background: #40affd;\n  outline: 0\n\x7d\n\n.btn:focus \x7b\n  box-shadow: 0 0 1.25em rgba(50, 50, 150, .05)\n\x7d\n\n.btn:active \x7b\n  opacity: .66;\n  background: #2085bc;\n  -"

/-- Part 1 of the inline stylesheet `_CSS` (split only to keep kernel
evaluation shallow; the parts concatenate to the verbatim source text). -/
def cssPart1 : String :=
  "webkit-transition-duration: 0s;\n  transition-duration: 0s\n\x7d\n\n.btn:disabled,\n.btn:disabled:active,\n.btn:disabled:hover \x7b\n  cursor: default;\n  background: #d0dae3\n\x7d\n\nform \x7b\n  display: block\n\x7d\n\n.form__field \x7b\n  -webkit-transition: margin .2s ease;\n  transition: margin .2s ease\n\x7d\n\n.form__field+.form__field \x7b\n  margin-top: 2.5em\n\x7d\n\n.form__field label \x7b\n  display: block;\n  font-weight: 600;\n  font-size: 1.125em\n\x7d\n\n.form__field label+* \x7b\n  margin-top: 1.25em\n\x7d\n\n.form__field input[type=text],\n.form__field textarea \x7b\n  -moz-appearance: none;\n  -webkit-appearance: none;\n  width: 100%;\n  font-size: 1em;\n  -webkit-font-smoothing: antialiased;\n  -moz-osx-font-smoothing: grayscale;\n  padding: .8125em 1.125em;\n  color: #232323;\n  border: .125em solid #d4dce2;\n  display: block;\n  box-sizing: border-box;\n  -webkit-transition: background-color .2s ease, color .2s ease, border-color .2s ease, opacity .2s ease;\n  transition: background-color .2s ease, color .2s ease, border-color .2s ease, opacity .2s ease\n\x7d\n\n.form__field input[type=text]::-webkit-input-placeholder,\n.form__field textarea::-webkit-input-placeholder \x7b\n  color: #b4b4b4\n\x7d\n\n.form__field input[type=text]:-moz-placeholder,\n.form__field textarea:-moz-placeholder \x7b\n  color: #b4b4b4\n\x7d\n\n.form__field input[type=text]::-moz-placeholder,\n.form__field textarea::-moz-placeholder \x7b\n  color: #b4b4b4\n\x7d\n\n.form__field input[type=text]:-ms-input-placeh"

/-- Part 2 of the inline stylesheet `_CSS` (split only to keep kernel
evaluation shallow; the parts concatenate to the verbatim source text). -/
def cssPart2 : String :=
  "older,\n.form__field textarea:-ms-input-placeholder \x7b\n  color: #b4b4b4\n\x7d\n\n.form__field input[type=text]:focus,\n.form__field textarea:focus \x7b\n  outline: 0;\n  border-color: #63a7d4;\n  box-shadow: 0 0 1.25em rgba(50, 50, 150, .05)\n\x7d\n\n.form__field textarea \x7b\n  resize: vertical;\n  min-height: 8.25em\n\x7d\n\n.form__field .btn \x7b\n  -webkit-user-select: none;\n  -moz-user-select: none;\n  -ms-user-select: none;\n  user-select: none;\n  -webkit-touch-callout: none\n\x7d\n\n.form__field--btn \x7b\n  display: -webkit-box;\n  display: -ms-flexbox;\n  display: -webkit-flex;\n  display: flex;\n  -webkit-flex-direction: row;\n  -ms-flex-direction: row;\n  -webkit-box-orient: horizontal;\n  -webkit-box-direction: normal;\n  flex-direction: row;\n  -webkit-justify-content: flex-end;\n  -ms-justify-content: flex-end;\n  -webkit-box-pack: end;\n  -ms-flex-pack: end;\n  justify-content: flex-end\n\x7d\n\n@media screen and (max-height:760px) \x7b\n  .form__instructions \x7b\n    margin: 1.875em 0 1.125em\n  \x7d\n  .form__field:not(.form__field--btn)+.form__field:not(.form__field--btn) \x7b\n    margin-top: 1.25em\n  \x7d\n\x7d\n\nbody,\nhtml \x7b\n  width: 100%;\n  height: 100%;\n  margin: 0;\n  padding: 0;\n  font-family: \x27Source Sans Pro\x27, sans-serif\n\x7d\n\nh1 \x7b\n  font-weight: 300\n\x7d\n\n.model__output \x7b\n  background: #fff\n\x7d\n\n.model__output.model__output--empty \x7b\n  background: 0 0\n\x7d\n\n.placeholder \x7b\n  width: 100%;\n  height: 100%;\n  display: -webkit-box;\n  display: -ms-flexbox;\n "

/-- Part 3 of the inline stylesheet `_CSS` (split only to keep kernel
evaluation shallow; the parts concatenate to the verbatim source text). -/
def cssPart3 : String :=
  " display: -webkit-flex;\n  display: flex;\n  -webkit-align-items: center;\n  -ms-flex-align: center;\n  -webkit-box-align: center;\n  align-items: center;\n  -webkit-justify-content: center;\n  -ms-justify-content: center;\n  -webkit-box-pack: center;\n  -ms-flex-pack: center;\n  justify-content: center;\n  -webkit-user-select: none;\n  -moz-user-select: none;\n  -ms-user-select: none;\n  user-select: none;\n  -webkit-touch-callout: none;\n  cursor: default\n\x7d\n\n.placeholder .placeholder__content \x7b\n  display: -webkit-box;\n  display: -ms-flexbox;\n  display: -webkit-flex;\n  display: flex;\n  -webkit-flex-direction: column;\n  -ms-flex-direction: column;\n  -webkit-box-orient: vertical;\n  -webkit-box-direction: normal;\n  flex-direction: column;\n  -webkit-align-items: center;\n  -ms-flex-align: center;\n  -webkit-box-align: center;\n  align-items: center;\n  text-align: center\n\x7d\n\n.placeholder svg \x7b\n  display: block\n\x7d\n\n.placeholder svg.placeholder__empty,\n.placeholder svg.placeholder__error \x7b\n  width: 6em;\n  height: 3.625em;\n  fill: #e1e5ea;\n  margin-bottom: 2em\n\x7d\n\n.placeholder svg.placeholder__error \x7b\n  width: 4.4375em;\n  height: 4em\n\x7d\n\n.placeholder p \x7b\n  font-size: 1em;\n  margin: 0;\n  padding: 0;\n  color: #9aa8b2\n\x7d\n\n.placeholder svg.placeholder__working \x7b\n  width: 3.4375em;\n  height: 3.4375em;\n  -webkit-animation: working 1s infinite linear;\n  animation: working 1s infinite linear\n\x7d\n\n@-webkit-keyframes wo"

/-- Part 4 of the inline stylesheet `_CSS` (split only to keep kernel
evaluation shallow; the parts concatenate to the verbatim source text). -/
def cssPart4 : String :=
  "rking \x7b\n  0% \x7b\n    -webkit-transform: rotate(0deg)\n  \x7d\n  100% \x7b\n    -webkit-transform: rotate(360deg)\n  \x7d\n\x7d\n\n@keyframes working \x7b\n  0% \x7b\n    -webkit-transform: rotate(0deg);\n    -ms-transform: rotate(0deg);\n    transform: rotate(0deg)\n  \x7d\n  100% \x7b\n    -webkit-transform: rotate(360deg);\n    -ms-transform: rotate(360deg);\n    transform: rotate(360deg)\n  \x7d\n\x7d\n\n.model__content \x7b\n  padding: 1.875em 2.5em;\n  margin: auto;\n  -webkit-transition: padding .2s ease;\n  transition: padding .2s ease\n\x7d\n\n.model__content:not(.model__content--srl-output) \x7b\n  max-width: 61.25em\n\x7d\n\n.model__content h2 \x7b\n  margin: 0;\n  padding: 0;\n  font-size: 1em\n\x7d\n\n.model__content h2 span \x7b\n  font-size: 2em;\n  color: rgba(35, 35, 35, .75)\n\x7d\n\n.model__content h2 .tooltip,\n.model__content h2 span \x7b\n  vertical-align: top\n\x7d\n\n.model__content h2 span+.tooltip \x7b\n  margin-left: .4375em\n\x7d\n\n.model__content>h2:first-child \x7b\n  margin: -.25em 0 0 -.03125em\n\x7d\n\n.model__content__summary \x7b\n  font-size: 1em;\n  -webkit-font-smoothing: antialiased;\n  -moz-osx-font-smoothing: grayscale;\n  padding: 1.25em;\n  background: #f6f8fa\n\x7d\n\n@media screen and (min-height:800px) \x7b\n  .model__content \x7b\n    padding-top: 4.6vh;\n    padding-bottom: 4.6vh\n  \x7d\n\x7d\n\n.pane-container \x7b\n  display: -webkit-box;\n  display: -ms-flexbox;\n  display: -webkit-flex;\n  display: flex;\n  -webkit-flex-direction: column;\n  -ms-flex-direction: column;\n  -webkit-box-orient: ve"

/-- Part 5 of the inline stylesheet `_CSS` (split only to keep kernel
evaluation shallow; the parts concatenate to the verbatim source text). -/
def cssPart5 : String :=
  "rtical;\n  -webkit-box-direction: normal;\n  flex-direction: column;\n  height: 100%\n\x7d\n\n.pane \x7b\n  display: -webkit-box;\n  display: -ms-flexbox;\n  display: -webkit-flex;\n  display: flex;\n  -webkit-flex-direction: row;\n  -ms-flex-direction: row;\n  -webkit-box-orient: horizontal;\n  -webkit-box-direction: normal;\n  flex-direction: row;\n  position: relative;\n  -webkit-box-flex: 2;\n  -webkit-flex: 2;\n  -ms-flex: 2;\n  flex: 2;\n  height: auto;\n  min-height: 100%;\n  min-height: 34.375em\n\x7d\n\n.pane__left,\n.pane__right \x7b\n  width: 100%;\n  height: 100%;\n  -webkit-align-self: stretch;\n  -ms-flex-item-align: stretch;\n  align-self: stretch;\n  min-width: 24em;\n  min-height: 34.375em\n\x7d\n\n.pane__left \x7b\n  height: auto;\n  min-height: 100%\n\x7d\n\n.pane__right \x7b\n  width: 100%;\n  overflow: auto;\n  height: auto;\n  min-height: 100%\n\x7d\n\n.pane__right .model__content.model__content--srl-output \x7b\n  display: inline-block;\n  margin: auto\n\x7d\n\n.pane__thumb \x7b\n  height: auto;\n  min-height: 100%;\n  margin-left: -.625em;\n  position: absolute;\n  width: 1.25em\n\x7d\n\n.pane__thumb:after \x7b\n  display: block;\n  position: absolute;\n  height: 100%;\n  top: 0;\n  content: \"\";\n  width: .25em;\n  background: #e1e5ea;\n  left: .5em\n\x7d\n"

/-- The inline stylesheet `_CSS` from the source, verbatim. -/
def _CSS : String :=
  cssPart0 ++ cssPart1 ++ cssPart2 ++ cssPart3 ++ cssPart4 ++ cssPart5

/-- Concatenation of a list of strings: Python's `"".join(...)` used for
the `inputs` variable in `_html`. -/
def joinAll : List String → String
  | [] => ""
  | x :: xs => x ++ joinAll xs

/-- Join with a separator: Python's `sep.join(...)` used for the quoted
field list in `_html`. -/
def joinSep (sep : String) : List String → String
  | [] => ""
  | [x] => x
  | x :: xs => x ++ sep ++ joinSep sep xs

/-- A single apostrophe, written via its code point. -/
def sq : String := "\x27"

/-- Substitution into `_SINGLE_INPUT_TEMPLATE`, whose placeholder
`$field_name` occurs three times (label `for=`, label text, input `id=`). -/
def _SINGLE_INPUT_TEMPLATE_sub (field_name : String) : String :=
  inputChunk0 ++ field_name ++ inputChunk1 ++ field_name ++ inputChunk2 ++ field_name ++ inputChunk3

/-- Substitution into `_PAGE_TEMPLATE`, whose placeholders occur in the
order `$title`, `$css`, `$title`, `$inputs`, `$qfl`. -/
def _PAGE_TEMPLATE_sub (title css inputs qfl : String) : String :=
  pageChunk0 ++ title ++ pageChunk1 ++ css ++ pageChunk2 ++ title ++ pageChunk3 ++ inputs
    ++ pageChunk4 ++ qfl ++ pageChunk5

/-- The form renderer `_html(title, field_names)`: one input block per
field name, and the quoted field list `['f1','f2',...]` spliced into the
client-side script. -/
def _html (title : String) (field_names : List String) : String :=
  let inputs := joinAll (field_names.map _SINGLE_INPUT_TEMPLATE_sub)
  let quoted_field_names := field_names.map fun field_name => sq ++ field_name ++ sq
  let quoted_field_list := "[" ++ joinSep "," quoted_field_names ++ "]"
  _PAGE_TEMPLATE_sub title _CSS inputs quoted_field_list

/-- `send_file(path)`: serves the file's bytes; a missing file raises an
uncaught exception handled by the framework's default error path. -/
def send_file (fs : FileSystem) (path : String) : Except Exn HttpResponse :=
  match fs.readFile path with
  | some contents => .ok ⟨200, .fileBody contents⟩
  | none => .error .uncaught

/-- `send_from_directory(directory, path)`: serves the file, or raises
werkzeug's `NotFound` when it does not exist. -/
def send_from_directory (fs : FileSystem) (directory path : String) : Except Exn HttpResponse :=
  match fs.readFile (directory ++ "/" ++ path) with
  | some contents => .ok ⟨200, .fileBody contents⟩
  | none => .error .notFound

/-- The `index` route (`GET /`), source lines 104-110: serve
`static_dir/index.html` when a static directory is configured, otherwise
render `_html(title, field_names)` with status 200.  When `field_names`
is `None`, `_html` iterates over `None` and raises `TypeError`, modelled
as an uncaught exception. -/
def index (fs : FileSystem) (cfg : AppConfig) : HandlerOut :=
  match cfg.static_dir with
  | some static_dir => ⟨send_file fs (static_dir ++ "/index.html"), []⟩
  | none =>
    match cfg.field_names with
    | some field_names => ⟨.ok ⟨200, .textBody (_html cfg.title field_names)⟩, []⟩
    | none => ⟨.error .uncaught, []⟩

/-- The `predict` route (`/predict`, methods POST and OPTIONS), source
lines 112-127: empty 200 for OPTIONS; otherwise decode the body, call
`predict_json`, apply the sanitizer if present, log
`{"inputs": ..., "outputs": ...}` and return the prediction as JSON. -/
def predict (cfg : AppConfig) (method : Method) (data : Json) : HandlerOut :=
  match method with
  | .OPTIONS => ⟨.ok ⟨200, .textBody ""⟩, []⟩
  | _ =>
    let prediction := cfg.predictor.predict_json data
    let prediction :=
      match cfg.sanitizer with
      | some sanitizer => sanitizer prediction
      | none => prediction
    ⟨.ok ⟨200, .jsonBody prediction⟩, [Json.obj [("inputs", data), ("outputs", prediction)]]⟩

/-- The `predict_batch` route (`/predict_batch`, methods POST and
OPTIONS), source lines 129-141: empty 200 for OPTIONS; otherwise call
`predict_batch_json` on the decoded array and map the sanitizer over each
element.  Unlike `predict`, this handler writes no log line.  A non-array
body handed to `predict_batch_json` is outside the predictor's contract
and modelled as an uncaught exception. -/
def predict_batch (cfg : AppConfig) (method : Method) (data : Json) : HandlerOut :=
  match method with
  | .OPTIONS => ⟨.ok ⟨200, .textBody ""⟩, []⟩
  | _ =>
    match data with
    | .arr elems =>
      let prediction := cfg.predictor.predict_batch_json elems
      let prediction :=
        match cfg.sanitizer with
        | some sanitizer => prediction.map sanitizer
        | none => prediction
      ⟨.ok ⟨200, .jsonBody (.arr prediction)⟩, []⟩
    | _ => ⟨.error .uncaught, []⟩

/-- The catch-all route (`/<path:path>`, default methods), source lines
143-148: serve from the static directory when configured, otherwise raise
`ServerError("static_dir not specified", 404)`. -/
def static_proxy (fs : FileSystem) (cfg : AppConfig) (path : String) : Except Exn HttpResponse :=
  match cfg.static_dir with
  | some static_dir => send_from_directory fs static_dir path
  | none => .error (.serverError "static_dir not specified" 404)

/-- The registered `@app.errorhandler(ServerError)`, source lines 98-102:
`jsonify(error.to_dict())` with the response status set to
`error.status_code`. -/
def handle_invalid_usage (error : ServerError) : HttpResponse :=
  ⟨error.status_code, .jsonBody (ServerError.to_dict error)⟩

/-- Body text of Flask's default 500 page.  Only the status code of this
framework-generated response carries a contract; the text is the
framework's, not this repository's. -/
def defaultInternalErrorBody : String :=
  "<!doctype html><title>500 Internal Server Error</title>"

/-- Body text of werkzeug's default 404 page (framework-generated). -/
def defaultNotFoundBody : String :=
  "<!doctype html><title>404 Not Found</title>"

/-- Body text of werkzeug's default 405 page (framework-generated). -/
def defaultMethodNotAllowedBody : String :=
  "<!doctype html><title>405 Method Not Allowed</title>"

/-- Turn a handler outcome into the response the client sees: a raised
`ServerError` goes through `handle_invalid_usage`; werkzeug's `NotFound`
and any uncaught exception go through the framework's default 404 / 500
paths. -/
def runHandler (h : HandlerOut) : HttpResponse × List Json :=
  match h.result with
  | .ok response => (response, h.log)
  | .error (.serverError message status_code) =>
      (handle_invalid_usage ⟨message, status_code⟩, h.log)
  | .error .notFound => (⟨404, .textBody defaultNotFoundBody⟩, h.log)
  | .error .uncaught => (⟨500, .textBody defaultInternalErrorBody⟩, h.log)

/-- Strip the leading `/` of a URL path: werkzeug hands `static_proxy`
the `<path:path>` component without it. -/
def stripLeadingSlash (path : String) : String := path.drop 1

/-- Werkzeug-style routing of one request through the app built by
`make_app`, returning the response and the log lines written.

Rules, in werkzeug's specificity order:
`/` (default methods, i.e. GET plus automatic HEAD/OPTIONS),
`/predict` and `/predict_batch` (POST, OPTIONS), and the catch-all
`/<path:path>` (default methods).  A method not allowed by a matching
rule falls through to any other rule matching the same path — so a GET
to `/predict` is dispatched to `static_proxy`, not rejected — and only
when no rule accepts the pair does werkzeug answer 405.  OPTIONS on
routes that do not handle it explicitly gets werkzeug's automatic empty
200 response. -/
def dispatch (fs : FileSystem) (cfg : AppConfig) (req : Request) : HttpResponse × List Json :=
  if req.path = "/" then
    match req.method with
    | .GET => runHandler (index fs cfg)
    | .OPTIONS => (⟨200, .textBody ""⟩, [])
    | .POST => (⟨405, .textBody defaultMethodNotAllowedBody⟩, [])
  else if req.path = "/predict" then
    match req.method with
    | .POST => runHandler (predict cfg .POST req.body)
    | .OPTIONS => runHandler (predict cfg .OPTIONS req.body)
    | .GET => runHandler ⟨static_proxy fs cfg (stripLeadingSlash req.path), []⟩
  else if req.path = "/predict_batch" then
    match req.method with
    | .POST => runHandler (predict_batch cfg .POST req.body)
    | .OPTIONS => runHandler (predict_batch cfg .OPTIONS req.body)
    | .GET => runHandler ⟨static_proxy fs cfg (stripLeadingSlash req.path), []⟩
  else
    match req.method with
    | .GET => runHandler ⟨static_proxy fs cfg (stripLeadingSlash req.path), []⟩
    | .OPTIONS => (⟨200, .textBody ""⟩, [])
    | .POST => (⟨405, .textBody defaultMethodNotAllowedBody⟩, [])

/-- The warning printed by `make_app` when neither a static directory nor
field names are supplied (source lines 90-94). -/
def bothNoneWarning : String :=
  "Neither build_dir nor field_names passed. Demo won\x27t render on this port.\nYou must use nodejs + react app to interact with the server."

/-- The Flask app value: the captured configuration plus whatever
warnings `make_app` printed while building it. -/
structure App where
  cfg : AppConfig
  startup_warnings : List String

/-- `make_app` (source lines 60-96): with a configured static directory,
take its absolute path and `sys.exit(-1)` — modelled as `.error (-1)` —
when it does not exist; with neither static directory nor field names,
print a warning and continue; otherwise just build the app. -/
def make_app (fs : FileSystem) (cfg : AppConfig) : Except Int App :=
  match cfg.static_dir with
  | some static_dir =>
    let static_dir := fs.abspath static_dir
    if fs.pathExists static_dir then .ok ⟨{ cfg with static_dir := some static_dir }, []⟩
    else .error (-1)
  | none =>
    match cfg.field_names with
    | none => .ok ⟨cfg, [bothNoneWarning]⟩
    | some _ => .ok ⟨cfg, []⟩

/-- A WSGI server bound to a host and port, holding the app. -/
structure BoundServer where
  host : String
  port : Nat
  app : App

/-- The `serve` command (source lines 225-238): build the app with
`make_app`, then bind `WSGIServer((host, port), app)`.  `sys.exit(-1)`
inside `make_app` propagates, so on error no server value is ever
constructed and no socket is bound. -/
def serve (fs : FileSystem) (cfg : AppConfig) (host : String) (port : Nat) :
    Except Int BoundServer :=
  match make_app fs cfg with
  | .error code => .error code
  | .ok app => .ok ⟨host, port, app⟩

/-- The spec's stub predictor: `predict_json({"a": v}) == {"r": v}`
(identity elsewhere, which no claim exercises). -/
def stubPredict : Json → Json
  | .obj [("a", v)] => .obj [("r", v)]
  | j => j

/-- The stub `Predictor`, with the batch method mapping the single-input
stub over the list. -/
def stubPredictor : Predictor :=
  ⟨stubPredict, fun elems => elems.map stubPredict⟩

/-- The spec's sanitizer dropping key `r` from a JSON object. -/
def dropR : Json → Json
  | .obj fields => .obj (fields.filter fun kv => kv.fst != "r")
  | j => j

/-- A file system with no files at all, used for concrete witnesses. -/
def emptyFS : FileSystem :=
  ⟨fun _ => false, fun p => p, fun _ => none⟩

/-- Apply an optional sanitizer: `if sanitizer is not None: prediction =
sanitizer(prediction)`. -/
def applySanitizer : Option (Json → Json) → Json → Json
  | some sanitizer, prediction => sanitizer prediction
  | none, prediction => prediction

/-- Map an optional sanitizer over a batch: `if sanitizer is not None:
prediction = [sanitizer(p) for p in prediction]`. -/
def mapSanitizer : Option (Json → Json) → List Json → List Json
  | some sanitizer, prediction => prediction.map sanitizer
  | none, prediction => prediction

/-- Look up a key of a JSON object (first occurrence), `none` on
non-objects: "a JSON body containing a message field" is
`lookupField body "message" = some _`. -/
def lookupField : Json → String → Option Json
  | .obj fields, key => (fields.find? fun kv => kv.fst == key).map (·.snd)
  | _, _ => none

/-- The double-quote character, written via its code point. -/
def dq : Char := Char.ofNat 34

/-- `quoteFree s`: `s` contains no double quote.  Field names and titles
are trusted configuration (spec section 4.2); quote-freeness is what
keeps a spliced name from opening or closing an HTML attribute. -/
def quoteFree (s : String) : Bool := s.data.all fun c => c != dq

/-- The ten characters `id="input-` that open the id attribute of every
text input element `_html` generates (and occur nowhere else in the
page). -/
def pre10 : List Char := "id=\"input-".data

/-- The tail of `pre10` after its first character. -/
def pre10tail : List Char := "d=\"input-".data

/-- The id attribute `id="input-<f>"` of the text input for field `f`. -/
def markerStr (f : String) : String := "id=\"input-" ++ f ++ "\""

/-- The same id attribute as a character list. -/
def markerChars (f : String) : List Char := pre10 ++ f.data ++ [dq]

/-- Scan a document character by character, recording in positional
order every field name of `fns` whose input-id attribute
`id="input-<f>"` starts at the current position.
`idSeq fns doc = fns` states that the document contains exactly one
text-input id per field name, in the order of `fns`. -/
def idSeq (fns : List String) : List Char → List String
  | [] => []
  | c :: rest =>
    match fns.find? (fun f => List.isPrefixOf (markerChars f) (c :: rest)) with
    | some f => f :: idSeq fns rest
    | none => idSeq fns rest

/-- `seg_ok a`: no nonempty suffix of `a` begins with the attribute
opener `id="input-` or is a fragment of it.  Such a segment neither
contains nor touches off an id-attribute occurrence, whatever text
follows it. -/
def seg_ok (a : List Char) : Bool :=
  a.tails.all fun t =>
    t.isEmpty || (!(List.isPrefixOf pre10 t) && !(List.isPrefixOf t pre10))

/-- `noCont b`: `b` does not begin with any proper tail (after 1, 2 or 3
characters) of `id="input-`.  A quote-free region followed by such a `b`
cannot touch off an id-attribute occurrence. -/
def noCont (b : List Char) : Prop :=
  ¬ pre10.drop 1 <+: b ∧ ¬ pre10.drop 2 <+: b ∧ ¬ pre10.drop 3 <+: b

/-- A decomposition of the generated page into literal template text,
spliced quote-free names (the title, and field names in labels and in
the script's quoted list), and the input-id attributes themselves. -/
inductive Piece where
  | lit (s : String) : Piece
  | nameq (f : String) : Piece
  | mark (f : String) : Piece

/-- The characters of a rendered piece list. -/
def render : List Piece → List Char
  | [] => []
  | .lit s :: ps => s.data ++ render ps
  | .nameq f :: ps => f.data ++ render ps
  | .mark f :: ps => markerChars f ++ render ps

/-- The string of a rendered piece list. -/
def renderS : List Piece → String
  | [] => ""
  | .lit s :: ps => s ++ renderS ps
  | .nameq f :: ps => f ++ renderS ps
  | .mark f :: ps => markerStr f ++ renderS ps

/-- The field names of the `mark` pieces, in order. -/
def marks : List Piece → List String
  | [] => []
  | .mark f :: ps => f :: marks ps
  | .lit _ :: ps => marks ps
  | .nameq _ :: ps => marks ps

/-- `okPieces fns ps`: literal pieces are `seg_ok`, spliced names are
quote-free and never followed by a continuation completing `id="input-`,
and every `mark` carries a quote-free field name of `fns` whose closing
quote is not followed by `input-`. -/
def okPieces (fns : List String) : List Piece → Prop
  | [] => True
  | .lit s :: ps => seg_ok s.data = true ∧ okPieces fns ps
  | .nameq f :: ps => quoteFree f = true ∧ noCont (render ps) ∧ okPieces fns ps
  | .mark f :: ps =>
      quoteFree f = true ∧ f ∈ fns ∧ ¬ pre10.drop 4 <+: render ps ∧ okPieces fns ps

/-- `inputChunk2` minus its trailing `id="input-`. -/
def inputB2 : String := "</label>\n            <input type=\"text\" "

/-- `inputChunk3` minus its leading `"`. -/
def inputB3 : String :=
  " type=\"text\" required value placeholder=\"input goes here\">\n        </div>\n"

/-- The pieces of one rendered `_SINGLE_INPUT_TEMPLATE` block. -/
def blockPieces (f : String) : List Piece :=
  [.lit inputChunk0, .nameq f, .lit inputChunk1, .nameq f, .lit inputB2, .mark f,
   .lit inputB3]

/-- The pieces of the whole `inputs` region. -/
def blocksPieces : List String → List Piece
  | [] => []
  | f :: rest => blockPieces f ++ blocksPieces rest

/-- The pieces of the quoted-field-list region after its first element. -/
def qflTailPieces : List String → List Piece
  | [] => [.lit "\x27]"]
  | g :: rest => .lit "\x27,\x27" :: .nameq g :: qflTailPieces rest

/-- The pieces of the whole quoted-field-list region `['f1','f2',...]`. -/
def qflPieces : List String → List Piece
  | [] => [.lit "[]"]
  | f :: rest => .lit "[\x27" :: .nameq f :: qflTailPieces rest

/-- The whole page `_html title fns` as pieces. -/
def docPieces (title : String) (fns : List String) : List Piece :=
  [.lit pageChunk0, .nameq title, .lit pageChunk1, .lit cssPart0, .lit cssPart1,
   .lit cssPart2, .lit cssPart3, .lit cssPart4, .lit cssPart5, .lit pageChunk2,
   .nameq title, .lit pageChunk3]
    ++ blocksPieces fns ++ [.lit pageChunk4] ++ qflPieces fns ++ [.lit pageChunk5]

/-- The tail of the comma-joined quoted field list: empty after the last
element, a comma and the remaining list otherwise. -/
def joinSepCont : List String → String
  | [] => ""
  | l@(_ :: _) => "," ++ joinSep "," l

/-- C1: for every configured predictor and every JSON object body,
`POST /predict` answers 200 with `predict_json` of the decoded body,
sanitized exactly when a sanitizer is configured; on the stub predictor
the body `{"a":"x"}` yields `{"r":"x"}` with no sanitizer and `{}` with
the drop-`r` sanitizer. -/
theorem predict_post_returns_sanitized_prediction (p : Predictor)
    (san : Option (Json → Json)) (fns : Option (List String))
    (sd : Option String) (title : String) (fs : FileSystem)
    (kvs : List (String × Json)) :
    dispatch fs ⟨p, fns, sd, san, title⟩ ⟨.POST, "/predict", .obj kvs⟩
      = ({ status := 200,
           body := .jsonBody (applySanitizer san (p.predict_json (.obj kvs))) },
         [Json.obj [("inputs", .obj kvs),
                    ("outputs", applySanitizer san (p.predict_json (.obj kvs)))]])
    ∧ (dispatch emptyFS { predictor := stubPredictor }
        ⟨.POST, "/predict", .obj [("a", .str "x")]⟩).fst
      = { status := 200, body := .jsonBody (.obj [("r", .str "x")]) }
    ∧ (dispatch emptyFS { predictor := stubPredictor, sanitizer := some dropR }
        ⟨.POST, "/predict", .obj [("a", .str "x")]⟩).fst
      = { status := 200, body := .jsonBody (.obj []) } := by
  refine ⟨?_, rfl, rfl⟩
  cases san <;> rfl

/-- C2: for every JSON array body, `POST /predict_batch` answers 200 with
`predict_batch_json` of the decoded array, the sanitizer (when
configured) mapped over each element; on the stub predictor the input
`[{"a":"x"}, {"a":"y"}]` yields `[{"r":"x"}, {"r":"y"}]` in order. -/
theorem predict_batch_post_returns_mapped_predictions (p : Predictor)
    (san : Option (Json → Json)) (fns : Option (List String))
    (sd : Option String) (title : String) (fs : FileSystem)
    (elems : List Json) :
    dispatch fs ⟨p, fns, sd, san, title⟩ ⟨.POST, "/predict_batch", .arr elems⟩
      = ({ status := 200,
           body := .jsonBody (.arr (mapSanitizer san (p.predict_batch_json elems))) },
         [])
    ∧ (dispatch emptyFS { predictor := stubPredictor }
        ⟨.POST, "/predict_batch",
          .arr [.obj [("a", .str "x")], .obj [("a", .str "y")]]⟩).fst
      = { status := 200,
          body := .jsonBody (.arr [.obj [("r", .str "x")], .obj [("r", .str "y")]]) } := by
  refine ⟨?_, rfl⟩
  cases san <;> rfl

/-- C4: with no static directory configured, a GET for any path other
than `/` reaches `static_proxy`, which raises
`ServerError("static_dir not specified", 404)`; the registered error
handler serializes its dictionary and sets the status, so the client
gets 404 with a JSON body whose `message` field is present. -/
theorem get_unknown_path_returns_404_json (fs : FileSystem) (p : Predictor)
    (san : Option (Json → Json)) (fns : Option (List String)) (title : String)
    (path : String) (body : Json) (hpath : path ≠ "/") :
    dispatch fs ⟨p, fns, none, san, title⟩ ⟨.GET, path, body⟩
      = (handle_invalid_usage ⟨"static_dir not specified", 404⟩, [])
    ∧ (handle_invalid_usage ⟨"static_dir not specified", 404⟩).status = 404
    ∧ lookupField (ServerError.to_dict ⟨"static_dir not specified", 404⟩) "message"
      = some (.str "static_dir not specified") := by
  refine ⟨?_, rfl, rfl⟩
  unfold dispatch
  rw [if_neg hpath]
  by_cases h1 : path = "/predict" <;> by_cases h2 : path = "/predict_batch" <;>
    simp [h1, h2, static_proxy, runHandler]

/-- C4 witness: `GET /missing.js` on an app with no static directory. -/
theorem get_unknown_path_returns_404_json_witness :
    dispatch emptyFS ⟨stubPredictor, none, none, none, "AllenNLP Demo"⟩
      ⟨.GET, "/missing.js", .null⟩
      = (handle_invalid_usage ⟨"static_dir not specified", 404⟩, [])
    ∧ (handle_invalid_usage ⟨"static_dir not specified", 404⟩).status = 404
    ∧ lookupField (ServerError.to_dict ⟨"static_dir not specified", 404⟩) "message"
      = some (.str "static_dir not specified") :=
  get_unknown_path_returns_404_json emptyFS stubPredictor none none "AllenNLP Demo"
    "/missing.js" .null (by decide)

/-- C5: building the app for a configuration whose static directory does
not exist terminates with `sys.exit(-1)`, and `serve` therefore never
constructs (let alone binds) a server. -/
theorem nonexistent_static_dir_aborts (fs : FileSystem) (cfg : AppConfig)
    (d host : String) (port : Nat) (hd : cfg.static_dir = some d)
    (hex : fs.pathExists (fs.abspath d) = false) :
    make_app fs cfg = .error (-1) ∧ serve fs cfg host port = .error (-1) := by
  have hmk : make_app fs cfg = .error (-1) := by
    unfold make_app
    rw [hd]
    simp [hex]
  exact ⟨hmk, by unfold serve; rw [hmk]⟩

/-- C5 witness: a concrete configuration pointing at a directory the
(empty) file system does not contain. -/
theorem nonexistent_static_dir_aborts_witness :
    make_app emptyFS { predictor := stubPredictor, static_dir := some "/no/such/dir" }
      = .error (-1)
    ∧ serve emptyFS { predictor := stubPredictor, static_dir := some "/no/such/dir" }
        "127.0.0.1" 8000
      = .error (-1) :=
  nonexistent_static_dir_aborts emptyFS
    { predictor := stubPredictor, static_dir := some "/no/such/dir" }
    "/no/such/dir" "127.0.0.1" 8000 rfl rfl

/-- C6: `OPTIONS /predict` and `OPTIONS /predict_batch` answer 200 with
an empty body for every configuration. -/
theorem options_preflight_returns_empty_200 (fs : FileSystem) (cfg : AppConfig)
    (body : Json) :
    dispatch fs cfg ⟨.OPTIONS, "/predict", body⟩ = (⟨200, .textBody ""⟩, [])
    ∧ dispatch fs cfg ⟨.OPTIONS, "/predict_batch", body⟩ = (⟨200, .textBody ""⟩, []) :=
  ⟨rfl, rfl⟩

/-- C7 counterexample: a `GET /predict` with a JSON object body does not
return a 200 prediction — the route only accepts POST and OPTIONS, so the
request falls through to the catch-all rule and (with no static
directory) yields 404. -/
theorem get_predict_is_not_a_prediction :
    (dispatch emptyFS { predictor := stubPredictor }
      ⟨.GET, "/predict", .obj [("a", .str "x")]⟩).fst.status ≠ 200 := by
  decide

/-- C7 amended: `GET /predict` is not dispatched to the `predict`
handler; it matches the catch-all static rule, and with no static
directory configured it returns the 404 `ServerError` response. -/
theorem get_predict_falls_through_to_static (fs : FileSystem) (cfg : AppConfig)
    (body : Json) :
    dispatch fs cfg ⟨.GET, "/predict", body⟩
      = runHandler ⟨static_proxy fs cfg "predict", []⟩
    ∧ (cfg.static_dir = none →
        dispatch fs cfg ⟨.GET, "/predict", body⟩
          = (handle_invalid_usage ⟨"static_dir not specified", 404⟩, [])) := by
  refine ⟨rfl, fun h => ?_⟩
  simp [dispatch, static_proxy, h, runHandler, stripLeadingSlash]

/-- C7 amended witness: the fall-through at a concrete app and body. -/
theorem get_predict_falls_through_to_static_witness :
    dispatch emptyFS { predictor := stubPredictor }
        ⟨.GET, "/predict", .obj [("a", .str "x")]⟩
      = runHandler ⟨static_proxy emptyFS { predictor := stubPredictor } "predict", []⟩
    ∧ dispatch emptyFS { predictor := stubPredictor }
        ⟨.GET, "/predict", .obj [("a", .str "x")]⟩
      = (handle_invalid_usage ⟨"static_dir not specified", 404⟩, []) :=
  ⟨(get_predict_falls_through_to_static emptyFS { predictor := stubPredictor }
      (.obj [("a", .str "x")])).1,
   (get_predict_falls_through_to_static emptyFS { predictor := stubPredictor }
      (.obj [("a", .str "x")])).2 rfl⟩

/-- C8 counterexample: a concrete `POST /predict_batch` call writes no
log line at all, not one. -/
theorem predict_batch_logs_nothing_concrete :
    ((dispatch emptyFS { predictor := stubPredictor }
      ⟨.POST, "/predict_batch",
        .arr [.obj [("a", .str "x")], .obj [("a", .str "y")]]⟩).snd).length ≠ 1 := by
  decide

/-- C8 amended: `POST /predict_batch` behaves like `/predict` apart from
decoding an array and calling `predict_batch_json`, except that it writes
no log line; only `POST /predict` writes the `{inputs, outputs}` log
line. -/
theorem predict_batch_same_response_no_log (p : Predictor)
    (san : Option (Json → Json)) (fns : Option (List String))
    (sd : Option String) (title : String) (fs : FileSystem)
    (elems : List Json) (kvs : List (String × Json)) :
    (dispatch fs ⟨p, fns, sd, san, title⟩ ⟨.POST, "/predict_batch", .arr elems⟩).snd = []
    ∧ (dispatch fs ⟨p, fns, sd, san, title⟩ ⟨.POST, "/predict_batch", .arr elems⟩).fst
      = { status := 200,
          body := .jsonBody (.arr (mapSanitizer san (p.predict_batch_json elems))) }
    ∧ (dispatch fs ⟨p, fns, sd, san, title⟩ ⟨.POST, "/predict", .obj kvs⟩).snd
      = [Json.obj [("inputs", .obj kvs),
                   ("outputs", applySanitizer san (p.predict_json (.obj kvs)))]] := by
  refine ⟨?_, ?_, ?_⟩ <;> cases san <;> rfl

/-- C9 counterexample: with neither a static directory nor field names,
`make_app` succeeds (the server starts) and the failure of `GET /`
surfaces as a per-request 500 error — not as a fatal startup error. -/
theorem missing_config_error_is_per_request :
    (make_app emptyFS { predictor := stubPredictor }).isOk = true
    ∧ (dispatch emptyFS { predictor := stubPredictor } ⟨.GET, "/", .null⟩).fst.status
      = 500 :=
  ⟨rfl, rfl⟩

/-- C9 amended: with neither a static directory nor field names supplied,
`make_app` prints a warning and still returns an app, and `GET /` then
fails per-request: `_html` iterates over `None`, the raised `TypeError`
is not caught, and the framework's default 500 response is returned, so
no usable page is rendered. -/
theorem missing_config_warns_then_500 (fs : FileSystem) (p : Predictor)
    (san : Option (Json → Json)) (title : String) :
    make_app fs ⟨p, none, none, san, title⟩
      = .ok ⟨⟨p, none, none, san, title⟩, [bothNoneWarning]⟩
    ∧ dispatch fs ⟨p, none, none, san, title⟩ ⟨.GET, "/", .null⟩
      = (⟨500, .textBody defaultInternalErrorBody⟩, []) :=
  ⟨rfl, rfl⟩

/-- C10: the responses of `POST /predict` and `POST /predict_batch`
depend only on the predictor and the sanitizer — apps differing in file
system, field names, static directory or title answer identically. -/
theorem predict_ignores_title_fields_static (p : Predictor)
    (san : Option (Json → Json)) (fs₁ fs₂ : FileSystem)
    (fns₁ fns₂ : Option (List String)) (sd₁ sd₂ : Option String)
    (t₁ t₂ : String) (body : Json) :
    dispatch fs₁ ⟨p, fns₁, sd₁, san, t₁⟩ ⟨.POST, "/predict", body⟩
      = dispatch fs₂ ⟨p, fns₂, sd₂, san, t₂⟩ ⟨.POST, "/predict", body⟩
    ∧ dispatch fs₁ ⟨p, fns₁, sd₁, san, t₁⟩ ⟨.POST, "/predict_batch", body⟩
      = dispatch fs₂ ⟨p, fns₂, sd₂, san, t₂⟩ ⟨.POST, "/predict_batch", body⟩ :=
  ⟨rfl, rfl⟩

/-- Rendering a marker string gives the marker characters. -/
theorem markerStr_data (f : String) : (markerStr f).data = markerChars f := by
  have h : "\"".data = [dq] := by decide
  simp only [markerStr, markerChars, String.data_append, h]
  rfl

/-- Character-level and string-level rendering agree. -/
theorem render_eq_data : ∀ ps : List Piece, render ps = (renderS ps).data
  | [] => rfl
  | .lit s :: ps => by
      simp [render, renderS, String.data_append, render_eq_data ps]
  | .nameq f :: ps => by
      simp [render, renderS, String.data_append, render_eq_data ps]
  | .mark f :: ps => by
      simp [render, renderS, String.data_append, render_eq_data ps, markerStr_data]

/-- String rendering distributes over list append. -/
theorem renderS_append : ∀ ps qs : List Piece, renderS (ps ++ qs) = renderS ps ++ renderS qs
  | [], qs => by
      have h : ∀ s : String, "" ++ s = s := fun s => by
        cases s
        rfl
      simp [renderS, h]
  | .lit s :: ps, qs => by
      simp [renderS, renderS_append ps qs, String.append_assoc]
  | .nameq f :: ps, qs => by
      simp [renderS, renderS_append ps qs, String.append_assoc]
  | .mark f :: ps, qs => by
      simp [renderS, renderS_append ps qs, String.append_assoc]

/-- Mark extraction distributes over list append. -/
theorem marks_append : ∀ ps qs : List Piece, marks (ps ++ qs) = marks ps ++ marks qs
  | [], _ => rfl
  | .lit s :: ps, qs => by simp [marks, marks_append ps qs]
  | .nameq f :: ps, qs => by simp [marks, marks_append ps qs]
  | .mark f :: ps, qs => by simp [marks, marks_append ps qs]

/-- Each input block contributes exactly its own field name as a mark. -/
theorem marks_blocksPieces : ∀ l : List String, marks (blocksPieces l) = l
  | [] => rfl
  | f :: rest => by
      simp [blocksPieces, marks_append, blockPieces, marks, marks_blocksPieces rest]

/-- The quoted field list contributes no marks (tail part). -/
theorem marks_qflTailPieces : ∀ l : List String, marks (qflTailPieces l) = []
  | [] => rfl
  | g :: rest => by simp [qflTailPieces, marks, marks_qflTailPieces rest]

/-- The quoted field list contributes no marks. -/
theorem marks_qflPieces : ∀ l : List String, marks (qflPieces l) = []
  | [] => rfl
  | f :: rest => by simp [qflPieces, marks, marks_qflTailPieces rest]

/-- The marks of the whole page are exactly the field names, in order. -/
theorem marks_docPieces (title : String) (fns : List String) :
    marks (docPieces title fns) = fns := by
  simp [docPieces, marks_append, marks, marks_blocksPieces, marks_qflPieces]

/-- Defining equation of `idSeq` on a nonempty document. -/
theorem idSeq_cons (fns : List String) (c : Char) (rest : List Char) :
    idSeq fns (c :: rest)
      = match fns.find? (fun f => List.isPrefixOf (markerChars f) (c :: rest)) with
        | some f => f :: idSeq fns rest
        | none => idSeq fns rest := rfl

/-- A scan step where no marker starts emits nothing. -/
theorem idSeq_cons_none (fns : List String) (c : Char) (rest : List Char)
    (h : ∀ f ∈ fns, ¬ markerChars f <+: (c :: rest)) :
    idSeq fns (c :: rest) = idSeq fns rest := by
  rw [idSeq_cons,
    List.find?_eq_none.mpr fun f hf hb => h f hf (List.isPrefixOf_iff_prefix.mp hb)]

/-- A scan step whose `find?` succeeds emits the found name. -/
theorem idSeq_cons_some (fns : List String) (c : Char) (rest : List Char) (f : String)
    (h : fns.find? (fun g => List.isPrefixOf (markerChars g) (c :: rest)) = some f) :
    idSeq fns (c :: rest) = f :: idSeq fns rest := by
  rw [idSeq_cons, h]

/-- Scanning `a ++ b` skips over `a` entirely when no marker occurrence
starts inside `a`. -/
theorem idSeq_append_of_clean (fns : List String) (b : List Char) (a : List Char)
    (h : ∀ t, t <:+ a → t ≠ [] → ∀ f ∈ fns, ¬ markerChars f <+: (t ++ b)) :
    idSeq fns (a ++ b) = idSeq fns b := by
  induction a with
  | nil => rfl
  | cons c a ih =>
      have hnone : ∀ f ∈ fns, ¬ markerChars f <+: (c :: (a ++ b)) := by
        intro f hf
        have hc := h (c :: a) (List.suffix_refl _) (by simp) f hf
        rwa [List.cons_append] at hc
      rw [List.cons_append, idSeq_cons_none fns c (a ++ b) hnone]
      exact ih fun t ht htne f hf => h t (ht.trans (List.suffix_cons c a)) htne f hf

/-- Unpacking `seg_ok` at one nonempty suffix. -/
theorem seg_ok_spec {a : List Char} (ha : seg_ok a = true) {t : List Char}
    (hts : t <:+ a) (htne : t ≠ []) : ¬ pre10 <+: t ∧ ¬ t <+: pre10 := by
  have hmem : t ∈ a.tails := (List.mem_tails t a).mpr hts
  have hall := List.all_eq_true.mp ha t hmem
  cases t with
  | nil => exact absurd rfl htne
  | cons c ts =>
      simp only [List.isEmpty_cons, Bool.false_or, Bool.and_eq_true,
        Bool.not_eq_true'] at hall
      obtain ⟨h1, h2⟩ := hall
      constructor
      · intro hp
        rw [List.isPrefixOf_iff_prefix.mpr hp] at h1
        simp at h1
      · intro hp
        rw [List.isPrefixOf_iff_prefix.mpr hp] at h2
        simp at h2

/-- Packing `seg_ok` from its per-suffix characterization. -/
theorem seg_ok_intro {a : List Char}
    (h : ∀ t, t <:+ a → t ≠ [] → ¬ pre10 <+: t ∧ ¬ t <+: pre10) : seg_ok a = true := by
  apply List.all_eq_true.mpr
  intro t hmem
  have hts := (List.mem_tails t a).mp hmem
  cases t with
  | nil => rfl
  | cons c ts =>
      obtain ⟨h1, h2⟩ := h (c :: ts) hts (by simp)
      simp only [List.isEmpty_cons, Bool.false_or, Bool.and_eq_true, Bool.not_eq_true']
      exact ⟨Bool.eq_false_iff.mpr fun hb => h1 (List.isPrefixOf_iff_prefix.mp hb),
             Bool.eq_false_iff.mpr fun hb => h2 (List.isPrefixOf_iff_prefix.mp hb)⟩

/-- A `seg_ok` segment cannot start an `id="input-` occurrence, whatever
follows it. -/
theorem clean_of_seg_ok {a : List Char} (ha : seg_ok a = true) (b : List Char)
    (t : List Char) (hts : t <:+ a) (htne : t ≠ []) : ¬ pre10 <+: (t ++ b) := by
  intro hpre
  obtain ⟨h1, h2⟩ := seg_ok_spec ha hts htne
  rcases List.prefix_or_prefix_of_prefix hpre (List.prefix_append t b) with h | h
  · exact h1 h
  · exact h2 h

/-- `seg_ok` is closed under append. -/
theorem seg_ok_append {a b : List Char} (ha : seg_ok a = true) (hb : seg_ok b = true) :
    seg_ok (a ++ b) = true := by
  apply seg_ok_intro
  intro t hts htne
  rcases List.suffix_or_suffix_of_suffix hts (List.suffix_append a b) with h | h
  · exact seg_ok_spec hb h htne
  · obtain ⟨t', ht'⟩ := h
    by_cases ht'e : t' = []
    · rw [ht'e, List.nil_append] at ht'
      exact ht' ▸ seg_ok_spec hb (List.suffix_refl b) (ht' ▸ htne)
    · have ht'a : t' <:+ a := by
        obtain ⟨s, hs⟩ := hts
        have hcat : (s ++ t') ++ b = a ++ b := by
          rw [List.append_assoc, ht', hs]
        exact ⟨s, List.append_cancel_right hcat⟩
      constructor
      · rw [← ht']
        exact clean_of_seg_ok ha b t' ht'a ht'e
      · intro hp
        have ht'p : t' <+: pre10 := (ht' ▸ List.prefix_append t' b).trans hp
        exact (seg_ok_spec ha ht'a ht'e).2 ht'p

/-- `id="input-` begins every marker. -/
theorem prefix_of_marker (f : String) : pre10 <+: markerChars f := by
  rw [markerChars, List.append_assoc]
  exact List.prefix_append _ _

/-- A position not starting `id="input-` starts no marker. -/
theorem not_marker_of_not_pre10 {l : List Char} (h : ¬ pre10 <+: l) (f : String) :
    ¬ markerChars f <+: l :=
  fun hm => h ((prefix_of_marker f).trans hm)

/-- A prefix of an append no longer than the first part is a prefix of
the first part. -/
theorem prefix_of_append_of_le {p t b : List Char} (h : p <+: t ++ b)
    (hl : p.length ≤ t.length) : p <+: t := by
  have h1 : p = (t ++ b).take p.length := List.prefix_iff_eq_take.mp h
  rw [List.take_append_of_le_length hl] at h1
  rw [h1]
  exact List.take_prefix _ _

/-- A quote-free string contains no double quote. -/
theorem quoteFree_spec {f : String} (hf : quoteFree f = true) : dq ∉ f.data := by
  intro hmem
  have := List.all_eq_true.mp hf dq hmem
  simp at this

/-- A quote-free region followed by a `noCont` continuation cannot start
an `id="input-` occurrence: a long match would put the quote of
`id="` inside the region, and a short fragment would force the
continuation to begin with a tail of `id="input-`. -/
theorem clean_of_quoteFree {f : String} (hf : quoteFree f = true) {b : List Char}
    (hb : noCont b) (t : List Char) (hts : t <:+ f.data) (htne : t ≠ []) :
    ¬ pre10 <+: (t ++ b) := by
  intro hpre
  by_cases hlen : 4 ≤ t.length
  · have h4 : pre10.take 4 <+: t ++ b := (List.take_prefix 4 pre10).trans hpre
    have hlen4 : (pre10.take 4).length = 4 := by decide
    have h4t : pre10.take 4 <+: t :=
      prefix_of_append_of_le h4 (by rw [hlen4]; exact hlen)
    have hdq : dq ∈ pre10.take 4 := by decide
    exact quoteFree_spec hf (hts.subset (h4t.subset hdq))
  · push_neg at hlen
    obtain ⟨r, hr⟩ := hpre
    have hts3 : t.length ≤ pre10.length := by
      have : pre10.length = 10 := by decide
      omega
    have hdrop : pre10.drop t.length ++ r = b := by
      have hcong := congrArg (List.drop t.length) hr
      rwa [List.drop_append_of_le_length hts3, List.drop_left] at hcong
    have hdp : pre10.drop t.length <+: b := ⟨r, hdrop⟩
    have h123 : t.length = 1 ∨ t.length = 2 ∨ t.length = 3 := by
      have h0 : t.length ≠ 0 := fun h0 => htne (List.length_eq_zero.mp h0)
      omega
    obtain ⟨h1, h2, h3⟩ := hb
    rcases h123 with h | h | h
    · exact h1 (h ▸ hdp)
    · exact h2 (h ▸ hdp)
    · exact h3 (h ▸ hdp)

/-- A literal that disagrees with each proper tail of `id="input-`
protects any continuation: the junction is `noCont`. -/
theorem noCont_append_lit {L b : List Char}
    (h1 : ¬ pre10.drop 1 <+: L ∧ ¬ L <+: pre10.drop 1)
    (h2 : ¬ pre10.drop 2 <+: L ∧ ¬ L <+: pre10.drop 2)
    (h3 : ¬ pre10.drop 3 <+: L ∧ ¬ L <+: pre10.drop 3) :
    noCont (L ++ b) := by
  refine ⟨fun hp => ?_, fun hp => ?_, fun hp => ?_⟩
  · rcases List.prefix_or_prefix_of_prefix hp (List.prefix_append L b) with h | h
    · exact h1.1 h
    · exact h1.2 h
  · rcases List.prefix_or_prefix_of_prefix hp (List.prefix_append L b) with h | h
    · exact h2.1 h
    · exact h2.2 h
  · rcases List.prefix_or_prefix_of_prefix hp (List.prefix_append L b) with h | h
    · exact h3.1 h
    · exact h3.2 h

/-- After a closing double quote, only `input-` could continue an
id-attribute fragment; excluding it makes the junction `noCont`. -/
theorem noCont_dq_cons {c : List Char} (h : ¬ pre10.drop 4 <+: c) : noCont (dq :: c) := by
  refine ⟨fun hp => ?_, fun hp => ?_, fun hp => ?_⟩
  · rw [show pre10.drop 1 = 'd' :: pre10.drop 2 from by decide,
      List.cons_prefix_cons] at hp
    exact absurd hp.1 (by decide)
  · rw [show pre10.drop 2 = '=' :: pre10.drop 3 from by decide,
      List.cons_prefix_cons] at hp
    exact absurd hp.1 (by decide)
  · rw [show pre10.drop 3 = dq :: pre10.drop 4 from by decide,
      List.cons_prefix_cons] at hp
    exact h hp.2

/-- Take-while up to the first double quote recovers a quote-free
front. -/
theorem takeWhile_append_dq {x : List Char} (hx : dq ∉ x) (y : List Char) :
    (x ++ dq :: y).takeWhile (fun c => c != dq) = x := by
  induction x with
  | nil => simp [List.takeWhile_cons]
  | cons c x ih =>
      have hc : c ≠ dq := fun h => hx (h ▸ List.mem_cons_self c x)
      simp only [List.cons_append, List.takeWhile_cons, bne_iff_ne, ne_eq, hc,
        not_false_eq_true, if_true, List.cons.injEq, true_and]
      exact ih fun h => hx (List.mem_cons_of_mem c h)

/-- Two quote-free markers matching at the same position carry the same
field name. -/
theorem marker_prefix_unique {f g : String} (hf : quoteFree f = true)
    (hg : quoteFree g = true) {c : List Char}
    (h : markerChars g <+: markerChars f ++ c) : g = f := by
  obtain ⟨r, hr⟩ := h
  rw [markerChars, markerChars] at hr
  have hr' : g.data ++ (dq :: r) = f.data ++ (dq :: c) := by
    have hassoc := hr
    simp only [List.append_assoc] at hassoc
    have hcan := List.append_cancel_left hassoc
    simpa using hcan
  have hgf : g.data = f.data := by
    have h1 := congrArg (List.takeWhile fun ch => ch != dq) hr'
    rwa [takeWhile_append_dq (quoteFree_spec hg), takeWhile_append_dq (quoteFree_spec hf)]
      at h1
  exact String.ext hgf

/-- At the start of the marker of `f`, `find?` returns `f` itself. -/
theorem find?_marker_eq : ∀ (fns : List String) (f : String), f ∈ fns →
    quoteFree f = true → (∀ g ∈ fns, quoteFree g = true) → ∀ c : List Char,
    fns.find? (fun g => List.isPrefixOf (markerChars g) (markerChars f ++ c)) = some f
  | [], f, hf, _, _, _ => absurd hf (List.not_mem_nil f)
  | g :: fns, f, hf, hfq, hq, c => by
      by_cases hpg : List.isPrefixOf (markerChars g) (markerChars f ++ c) = true
      · rw [List.find?_cons_of_pos
          (p := fun g => List.isPrefixOf (markerChars g) (markerChars f ++ c)) _ hpg]
        have hgf : g = f :=
          marker_prefix_unique hfq (hq g (List.mem_cons_self g fns))
            (List.isPrefixOf_iff_prefix.mp hpg)
        rw [hgf]
      · rw [List.find?_cons_of_neg
          (p := fun g => List.isPrefixOf (markerChars g) (markerChars f ++ c)) _
          (by simpa using hpg)]
        have hftail : f ∈ fns := by
          rcases List.mem_cons.mp hf with h | h
          · exact absurd
              (h ▸ List.isPrefixOf_iff_prefix.mpr (List.prefix_append _ _)) hpg
          · exact h
        exact find?_marker_eq fns f hftail hfq
          (fun g' hg' => hq g' (List.mem_cons_of_mem g hg')) c

/-- The marker opener, spelled out. -/
theorem pre10_cons : pre10 = 'i' :: pre10tail := by decide

/-- The fragment of the marker after its first character is `seg_ok`. -/
theorem seg_ok_pre10tail : seg_ok pre10tail = true := by decide

/-- Scanning from the start of the marker of `f` emits exactly `f` and
then continues after the marker, provided its closing quote is not
followed by `input-`. -/
theorem idSeq_marker (fns : List String) (f : String) (hf : f ∈ fns)
    (hfq : quoteFree f = true) (hq : ∀ g ∈ fns, quoteFree g = true)
    (c : List Char) (hc : ¬ pre10.drop 4 <+: c) :
    idSeq fns (markerChars f ++ c) = f :: idSeq fns c := by
  have hshape : markerChars f ++ c = 'i' :: (pre10tail ++ (f.data ++ (dq :: c))) := by
    rw [markerChars, pre10_cons]
    simp
  rw [hshape, idSeq_cons_some fns 'i' (pre10tail ++ (f.data ++ (dq :: c))) f ?hfind]
  case hfind =>
    rw [← hshape]
    exact find?_marker_eq fns f hf hfq hq c
  congr 1
  rw [idSeq_append_of_clean fns (f.data ++ (dq :: c)) pre10tail ?h1]
  case h1 =>
    intro t ht htne g _
    exact not_marker_of_not_pre10
      (clean_of_seg_ok seg_ok_pre10tail (f.data ++ (dq :: c)) t ht htne) g
  rw [idSeq_append_of_clean fns (dq :: c) f.data ?h2]
  case h2 =>
    intro t ht htne g _
    exact not_marker_of_not_pre10
      (clean_of_quoteFree hfq (noCont_dq_cons hc) t ht htne) g
  rw [idSeq_cons_none fns dq c ?h3]
  case h3 =>
    intro g _
    apply not_marker_of_not_pre10 ?hnp g
    intro hp
    rw [pre10_cons, List.cons_prefix_cons] at hp
    exact absurd hp.1 (by decide)

/-- The scan of a well-formed piece list yields exactly its marks. -/
theorem idSeq_render (fns : List String) (hq : ∀ g ∈ fns, quoteFree g = true) :
    ∀ ps : List Piece, okPieces fns ps → idSeq fns (render ps) = marks ps
  | [], _ => rfl
  | .lit s :: ps, h => by
      obtain ⟨hs, hps⟩ := h
      have hcl : ∀ t, t <:+ s.data → t ≠ [] → ∀ g ∈ fns,
          ¬ markerChars g <+: (t ++ render ps) :=
        fun t ht htne g _ =>
          not_marker_of_not_pre10 (clean_of_seg_ok hs (render ps) t ht htne) g
      simp only [render, marks]
      rw [idSeq_append_of_clean fns (render ps) s.data hcl]
      exact idSeq_render fns hq ps hps
  | .nameq f :: ps, h => by
      obtain ⟨hfq, hnc, hps⟩ := h
      have hcl : ∀ t, t <:+ f.data → t ≠ [] → ∀ g ∈ fns,
          ¬ markerChars g <+: (t ++ render ps) :=
        fun t ht htne g _ =>
          not_marker_of_not_pre10 (clean_of_quoteFree hfq hnc t ht htne) g
      simp only [render, marks]
      rw [idSeq_append_of_clean fns (render ps) f.data hcl]
      exact idSeq_render fns hq ps hps
  | .mark f :: ps, h => by
      obtain ⟨hfq, hfm, hc, hps⟩ := h
      simp only [render, marks]
      rw [idSeq_marker fns f hfm hfq hq (render ps) hc]
      rw [idSeq_render fns hq ps hps]

set_option maxRecDepth 400000 in
/-- The fixed template text before the title is scan-clean. -/
theorem seg_ok_pageChunk0 : seg_ok pageChunk0.data = true := by decide

set_option maxRecDepth 400000 in
/-- The fixed template text between title and stylesheet is scan-clean. -/
theorem seg_ok_pageChunk1 : seg_ok pageChunk1.data = true := by decide

set_option maxRecDepth 400000 in
/-- The fixed template text between stylesheet and second title is
scan-clean. -/
theorem seg_ok_pageChunk2 : seg_ok pageChunk2.data = true := by decide

set_option maxRecDepth 400000 in
/-- The fixed template text between second title and inputs is
scan-clean. -/
theorem seg_ok_pageChunk3 : seg_ok pageChunk3.data = true := by decide

set_option maxRecDepth 400000 in
/-- The fixed template text between inputs and quoted field list
(including `id="output"`, whose continuation is not `input-`) is
scan-clean. -/
theorem seg_ok_pageChunk4 : seg_ok pageChunk4.data = true := by decide

set_option maxRecDepth 400000 in
/-- The fixed template text after the quoted field list is scan-clean. -/
theorem seg_ok_pageChunk5 : seg_ok pageChunk5.data = true := by decide

set_option maxRecDepth 400000 in
/-- Stylesheet part 0 is scan-clean. -/
theorem seg_ok_cssPart0 : seg_ok cssPart0.data = true := by decide

set_option maxRecDepth 400000 in
/-- Stylesheet part 1 is scan-clean. -/
theorem seg_ok_cssPart1 : seg_ok cssPart1.data = true := by decide

set_option maxRecDepth 400000 in
/-- Stylesheet part 2 is scan-clean. -/
theorem seg_ok_cssPart2 : seg_ok cssPart2.data = true := by decide

set_option maxRecDepth 400000 in
/-- Stylesheet part 3 is scan-clean. -/
theorem seg_ok_cssPart3 : seg_ok cssPart3.data = true := by decide

set_option maxRecDepth 400000 in
/-- Stylesheet part 4 is scan-clean. -/
theorem seg_ok_cssPart4 : seg_ok cssPart4.data = true := by decide

set_option maxRecDepth 400000 in
/-- Stylesheet part 5 is scan-clean. -/
theorem seg_ok_cssPart5 : seg_ok cssPart5.data = true := by decide

set_option maxRecDepth 200000 in
/-- The input-block text before the label name is scan-clean. -/
theorem seg_ok_inputChunk0 : seg_ok inputChunk0.data = true := by decide

/-- The input-block text between the two spliced names is scan-clean. -/
theorem seg_ok_inputChunk1 : seg_ok inputChunk1.data = true := by decide

set_option maxRecDepth 200000 in
/-- The input-block text before the id attribute is scan-clean. -/
theorem seg_ok_inputB2 : seg_ok inputB2.data = true := by decide

set_option maxRecDepth 200000 in
/-- The input-block text after the id attribute is scan-clean. -/
theorem seg_ok_inputB3 : seg_ok inputB3.data = true := by decide

/-- The empty quoted field list `[]` is scan-clean. -/
theorem seg_ok_qempty : seg_ok "[]".data = true := by decide

/-- The quoted-list opener is scan-clean. -/
theorem seg_ok_qopen : seg_ok "[\x27".data = true := by decide

/-- The quoted-list closer is scan-clean. -/
theorem seg_ok_qclose : seg_ok "\x27]".data = true := by decide

/-- The quoted-list separator is scan-clean. -/
theorem seg_ok_qsep : seg_ok "\x27,\x27".data = true := by decide

/-- A rendered piece list starting with a junction-safe literal is
`noCont`. -/
theorem noCont_render_lit {L : String} {ps : List Piece}
    (h1 : ¬ pre10.drop 1 <+: L.data ∧ ¬ L.data <+: pre10.drop 1)
    (h2 : ¬ pre10.drop 2 <+: L.data ∧ ¬ L.data <+: pre10.drop 2)
    (h3 : ¬ pre10.drop 3 <+: L.data ∧ ¬ L.data <+: pre10.drop 3) :
    noCont (render (.lit L :: ps)) := by
  simp only [render]
  exact noCont_append_lit h1 h2 h3

/-- A rendered piece list starting with a literal that disagrees with
`input-` does not begin with `input-`. -/
theorem not_inputTail_cont {L : String} {ps : List Piece}
    (h1 : ¬ pre10.drop 4 <+: L.data) (h2 : ¬ L.data <+: pre10.drop 4) :
    ¬ pre10.drop 4 <+: render (.lit L :: ps) := by
  simp only [render]
  intro hp
  rcases List.prefix_or_prefix_of_prefix hp (List.prefix_append L.data (render ps))
    with h | h
  · exact h1 h
  · exact h2 h

/-- The quoted-field-list tail pieces are well formed. -/
theorem ok_qflTail (fns : List String) : ∀ l : List String,
    (∀ g ∈ l, quoteFree g = true) →
    okPieces fns (qflTailPieces l ++ [.lit pageChunk5])
  | [], _ => ⟨seg_ok_qclose, seg_ok_pageChunk5, trivial⟩
  | g :: rs, hl => by
      refine ⟨seg_ok_qsep, hl g (List.mem_cons_self g rs), ?_,
        ok_qflTail fns rs fun x hx => hl x (List.mem_cons_of_mem g hx)⟩
      cases rs with
      | nil => exact noCont_render_lit (by decide) (by decide) (by decide)
      | cons g' rs' => exact noCont_render_lit (by decide) (by decide) (by decide)

/-- The quoted-field-list pieces are well formed. -/
theorem ok_qfl (fns : List String) : ∀ l : List String,
    (∀ g ∈ l, quoteFree g = true) →
    okPieces fns (qflPieces l ++ [.lit pageChunk5])
  | [], _ => ⟨seg_ok_qempty, seg_ok_pageChunk5, trivial⟩
  | f :: rs, hl => by
      refine ⟨seg_ok_qopen, hl f (List.mem_cons_self f rs), ?_,
        ok_qflTail fns rs fun x hx => hl x (List.mem_cons_of_mem f hx)⟩
      cases rs with
      | nil => exact noCont_render_lit (by decide) (by decide) (by decide)
      | cons g' rs' => exact noCont_render_lit (by decide) (by decide) (by decide)

/-- The input-block pieces are well formed in front of any well-formed
tail. -/
theorem ok_blocks (fns : List String) (tailPs : List Piece) : ∀ l : List String,
    (∀ g ∈ l, g ∈ fns ∧ quoteFree g = true) → okPieces fns tailPs →
    okPieces fns (blocksPieces l ++ tailPs)
  | [], _, htail => htail
  | f :: rs, hl, htail => by
      obtain ⟨hmem, hfq⟩ := hl f (List.mem_cons_self f rs)
      exact ⟨seg_ok_inputChunk0, hfq,
        noCont_render_lit (by decide) (by decide) (by decide),
        seg_ok_inputChunk1, hfq,
        noCont_render_lit (by decide) (by decide) (by decide),
        seg_ok_inputB2, hfq, hmem,
        not_inputTail_cont (by decide) (by decide),
        seg_ok_inputB3,
        ok_blocks fns tailPs rs (fun x hx => hl x (List.mem_cons_of_mem f hx)) htail⟩

/-- The whole page decomposition is well formed when the title and all
field names are quote-free. -/
theorem ok_doc (fns : List String) (title : String) (ht : quoteFree title = true)
    (hq : ∀ g ∈ fns, quoteFree g = true) :
    okPieces fns (docPieces title fns) := by
  refine ⟨seg_ok_pageChunk0, ht,
    noCont_render_lit (by decide) (by decide) (by decide),
    seg_ok_pageChunk1, seg_ok_cssPart0, seg_ok_cssPart1, seg_ok_cssPart2,
    seg_ok_cssPart3, seg_ok_cssPart4, seg_ok_cssPart5, seg_ok_pageChunk2, ht,
    noCont_render_lit (by decide) (by decide) (by decide),
    seg_ok_pageChunk3, ?_⟩
  simp only [List.append_eq, List.nil_append, List.append_assoc, List.cons_append]
  exact ok_blocks fns (.lit pageChunk4 :: (qflPieces fns ++ [.lit pageChunk5])) fns
    (fun g hg => ⟨hg, hq g hg⟩) ⟨seg_ok_pageChunk4, ok_qfl fns fns hq⟩

/-- Splitting one comma-joined element off. -/
theorem joinSep_cons (x : String) (xs : List String) :
    joinSep "," (x :: xs) = x ++ joinSepCont xs := by
  cases xs with
  | nil => simp [joinSep, joinSepCont, String.append_empty]
  | cons y ys => simp [joinSep, joinSepCont, String.append_assoc]

/-- One rendered input block equals its piece rendering. -/
theorem single_input_renderS (f : String) :
    _SINGLE_INPUT_TEMPLATE_sub f = renderS (blockPieces f) := by
  have h2 : inputChunk2 = inputB2 ++ "id=\"input-" := by decide
  have h3 : inputChunk3 = "\"" ++ inputB3 := by decide
  simp only [_SINGLE_INPUT_TEMPLATE_sub, blockPieces, renderS, markerStr, h2, h3,
    String.append_assoc, String.append_empty]

/-- The inputs region equals its piece rendering. -/
theorem joinAll_blocks : ∀ l : List String,
    joinAll (l.map _SINGLE_INPUT_TEMPLATE_sub) = renderS (blocksPieces l)
  | [] => rfl
  | f :: rest => by
      simp only [List.map_cons, joinAll, blocksPieces, renderS_append,
        single_input_renderS, joinAll_blocks rest]

/-- The quoted-field-list tail equals its piece rendering. -/
theorem qfl_tail_renderS : ∀ l : List String,
    sq ++ (joinSepCont (l.map fun f => sq ++ f ++ sq) ++ "]")
      = renderS (qflTailPieces l)
  | [] => by
      simp only [List.map_nil, joinSepCont, qflTailPieces, renderS, String.append_empty]
      decide
  | g :: rs => by
      simp only [List.map_cons, joinSepCont, qflTailPieces, renderS]
      rw [joinSep_cons, ← qfl_tail_renderS rs]
      have hq : "\x27,\x27" = sq ++ ("," ++ sq) := by decide
      rw [hq]
      simp [String.append_assoc]

/-- The quoted field list equals its piece rendering. -/
theorem qfl_renderS : ∀ l : List String,
    "[" ++ joinSep "," (l.map fun f => sq ++ f ++ sq) ++ "]"
      = renderS (qflPieces l)
  | [] => by
      simp only [List.map_nil, joinSep, qflPieces, renderS, String.append_empty]
      decide
  | f :: rs => by
      simp only [List.map_cons, qflPieces, renderS]
      rw [joinSep_cons, ← qfl_tail_renderS rs]
      have hq : "[\x27" = "[" ++ sq := by decide
      rw [hq]
      simp [String.append_assoc]

/-- The page `_html` renders equals its piece decomposition. -/
theorem html_renderS (title : String) (fns : List String) :
    _html title fns = renderS (docPieces title fns) := by
  simp only [_html]
  rw [joinAll_blocks, qfl_renderS]
  simp only [_PAGE_TEMPLATE_sub, _CSS, docPieces, List.append_eq, List.cons_append,
    List.nil_append, List.append_assoc, renderS_append, renderS,
    String.append_assoc, String.append_empty]

/-- C3: with field names configured and no static directory, `GET /`
returns 200 with the `_html` page, and that page contains exactly one
text input element per field name — witnessed by its id attribute
`id="input-<field_name>"`, which occurs once per field — in the order
of the configured list.  (Scanning is exact for quote-free field names
and title; field names are trusted configuration per spec 4.2.) -/
theorem index_renders_one_input_per_field (p : Predictor)
    (san : Option (Json → Json)) (fs : FileSystem) (title : String)
    (fns : List String) (body : Json) (hne : fns ≠ [])
    (hq : ∀ g ∈ fns, quoteFree g = true) (ht : quoteFree title = true) :
    dispatch fs ⟨p, some fns, none, san, title⟩ ⟨.GET, "/", body⟩
      = (⟨200, .textBody (_html title fns)⟩, [])
    ∧ idSeq fns (_html title fns).data = fns := by
  refine ⟨rfl, ?_⟩
  rw [html_renderS title fns, ← render_eq_data,
    idSeq_render fns hq (docPieces title fns) (ok_doc fns title ht hq)]
  exact marks_docPieces title fns

/-- C3 witness: the concrete two-field form page. -/
theorem index_renders_one_input_per_field_witness :
    dispatch emptyFS ⟨stubPredictor, some ["premise", "hypothesis"], none, none,
        "AllenNLP Demo"⟩ ⟨.GET, "/", .null⟩
      = (⟨200, .textBody (_html "AllenNLP Demo" ["premise", "hypothesis"])⟩, [])
    ∧ idSeq ["premise", "hypothesis"]
        (_html "AllenNLP Demo" ["premise", "hypothesis"]).data
      = ["premise", "hypothesis"] :=
  index_renders_one_input_per_field stubPredictor none emptyFS "AllenNLP Demo"
    ["premise", "hypothesis"] .null (by decide) (by decide) (by decide)

end ServerSimple
